import Mathlib

/-!
Shallow embedding of `release/scripts/modules/rigify/leg_quadruped_generic.py`,
the generic quadruped leg IK generator of the rigify rig-generation toolkit.

The module operates on the host armature: a collection of edit bones (name,
head, tail, roll, connected flag, parent) together with per-bone pose
constraints, and a mode state machine (EDIT / OBJECT) driven by
`bpy.ops.object.mode_set`.  We embed the armature as a list of bone records,
the constraint stacks as per-bone lists, and record every mode switch and
constraint creation in an event log so that temporal claims can be stated.

Geometry is over the real numbers.  The helper functions used by the module
(`rigify_utils.copy_bone_simple`, `rigify_utils.add_pole_target_bone`, the
`bone_class_instance` chain copy, and the host methods
`EditBone.translate` / `align_orientation` / `align_roll` / `length` /
`matrix`) are part of the repository or host but are not included under
`src/`; they are modelled from the specification's words, as marked on each
definition.
-/

namespace LegQuadruped

/-- Real 3-vector, standing for a `Mathutils.Vector` of the host. -/
structure V3 where
  x : ℝ
  y : ℝ
  z : ℝ

instance : Zero V3 := ⟨⟨0, 0, 0⟩⟩

instance : Add V3 := ⟨fun a b => ⟨a.x + b.x, a.y + b.y, a.z + b.z⟩⟩

instance : Sub V3 := ⟨fun a b => ⟨a.x - b.x, a.y - b.y, a.z - b.z⟩⟩

instance : Neg V3 := ⟨fun a => ⟨-a.x, -a.y, -a.z⟩⟩

instance : SMul ℝ V3 := ⟨fun c v => ⟨c * v.x, c * v.y, c * v.z⟩⟩

/-- Euclidean length of a vector (`Vector.length` of the host). -/
noncomputable def V3.len (v : V3) : ℝ := Real.sqrt (v.x ^ 2 + v.y ^ 2 + v.z ^ 2)

/-- Modelled from the spec: `Vector.normalize()` of the host math library
(not under `src/`) scales a vector to unit length; the zero vector is left
unchanged (here via inverse of zero being zero). -/
noncomputable def V3.normalize (v : V3) : V3 := (V3.len v)⁻¹ • v

/-- The constant vector (0, 0, -1) passed to `align_roll` by `ik`. -/
noncomputable def negZ : V3 := ⟨0, 0, -1⟩

mutual

/-- Modelled from the spec: a vector-valued expression used as the argument
of the host method `EditBone.align_roll`.  The host computes the bone matrix
from head, tail and roll in C code that is not under `src/`; we record the
application of its rotation part to a vector symbolically. -/
inductive VecE where
  | lit (v : V3)
  | rotApp (head tail : V3) (roll : RollE) (arg : V3)

/-- Modelled from the spec: the roll of an edit bone.  A numeric roll is a
real number; the host method `EditBone.align_roll` (C code not under `src/`)
recomputes the roll from a target vector, which we record symbolically. -/
inductive RollE where
  | val (r : ℝ)
  | aligned (target : VecE)

end

/-- Constraint type: the two constraint kinds created by `ik`. -/
inductive CType where
  | copyRotation
  | ikSolver
deriving DecidableEq

/-- Target object reference of a constraint; `ik` only ever targets the rig
object itself (the `obj` argument). -/
inductive TargetRef where
  | rigObject
deriving DecidableEq

/-- A pose-bone constraint.  Default field values are the host defaults of a
freshly created constraint (`constraints.new`); `ik` overwrites the fields it
assigns. -/
structure Constraint where
  ctype : CType
  target : Option TargetRef := none
  subtarget : String := ""
  chain_length : ℕ := 0
  iterations : ℕ := 500
  pole_angle : ℚ := 0
  use_tail : Bool := true
  use_stretch : Bool := true
  use_target : Bool := true
  use_rotation : Bool := false
  weight : ℚ := 1
  pole_target : Option TargetRef := none
  pole_subtarget : String := ""

/-- A freshly created constraint of the given type (`constraints.new(...)`),
all other fields at their host defaults. -/
def newConstraint (t : CType) : Constraint := { ctype := t }

/-- An armature bone: edit data (name, head, tail, roll, connected, parent)
plus the constraint stack of its pose bone. -/
structure EBone where
  name : String
  head : V3
  tail : V3
  roll : RollE
  connected : Bool
  parent : Option String
  constraints : List Constraint

/-- The host mode state machine values used by the module. -/
inductive Mode where
  | editMode
  | objectMode
deriving DecidableEq

/-- Events recorded while running `ik`: mode switches and constraint
creations, in program order. -/
inductive Event where
  | modeSet (m : Mode)
  | conNew (boneName : String) (t : CType)
deriving DecidableEq

/-- The armature session: bones, current mode, event log. -/
structure Session where
  bones : List EBone
  mode : Mode
  events : List Event

/-- Look a bone up by name (`arm.edit_bones[name]` / `arm.bones[name]`). -/
def findBone (bones : List EBone) (n : String) : Option EBone :=
  bones.find? (fun b => b.name == n)

/-- Apply an update to the bone of the given name, leaving others alone. -/
def updBone (bones : List EBone) (n : String) (f : EBone → EBone) : List EBone :=
  bones.map (fun b => if b.name == n then f b else b)

/-- Rename a bone; parent references follow the rename, as they do in the
host (where the parent is a pointer, not a string). -/
def renameBone (bones : List EBone) (old new : String) : List EBone :=
  bones.map (fun b =>
    let b1 := if b.name == old then { b with name := new } else b
    if b1.parent == some old then { b1 with parent := some new } else b1)

/-- Children of the named bone (`bone.children` of the host): the bones whose
parent is that bone, in armature order. -/
def boneChildren (bones : List EBone) (n : String) : List EBone :=
  bones.filter (fun b => b.parent == some n)

/-- Head-to-tail vector of a bone (`EditBone.vector`). -/
def EBone.vec (b : EBone) : V3 := b.tail - b.head

/-- Length of a bone (`EditBone.length` getter). -/
noncomputable def EBone.length (b : EBone) : ℝ := V3.len b.vec

/-- Modelled from the spec: `EditBone.translate` (host API, not under `src/`)
moves head and tail by the given vector. -/
def EBone.translate (b : EBone) (v : V3) : EBone :=
  { b with head := b.head + v, tail := b.tail + v }

/-- Modelled from the spec: `EditBone.align_orientation(other)` (host API,
not under `src/`) points this bone in the direction of `other` keeping its
own head and length, and copies the roll of `other`. -/
noncomputable def EBone.align_orientation (b other : EBone) : EBone :=
  { b with tail := b.head + (b.length • V3.normalize other.vec), roll := other.roll }

/-- Modelled from the spec: `EditBone.length` setter (host API, not under
`src/`) rescales the bone along its current direction to the given length. -/
noncomputable def EBone.setLength (b : EBone) (value : ℝ) : EBone :=
  { b with tail := b.head + (value • V3.normalize b.vec) }

/-- Modelled from the spec: `EditBone.align_roll(vector)` (host C code, not
under `src/`) recomputes the roll from the target vector; recorded
symbolically. -/
def EBone.align_roll (b : EBone) (target : VecE) : EBone :=
  { b with roll := RollE.aligned target }

/-- Modelled from the spec: `bone.matrix.rotationPart() * arg`, the rotation
part of the bone matrix (computed by host C code from head, tail and roll,
not under `src/`) applied to a vector; recorded symbolically. -/
def EBone.matrixRotApp (b : EBone) (arg : V3) : VecE :=
  VecE.rotApp b.head b.tail b.roll arg

/-- Modelled from the spec: `rigify_utils.copy_bone_simple(arm, from, name)`
(repository code not under `src/`) creates a new edit bone with the given
name copying head, tail and roll of the source bone, no parent, not
connected, and returns it.  Fresh-name collisions (host auto-suffixing) are
outside the model; the instantiations below use distinct names. -/
def copy_bone_simple (bones : List EBone) (from_name new_name : String) :
    Option (List EBone) :=
  match findBone bones from_name with
  | none => none
  | some src =>
      some (bones ++ [{ name := new_name, head := src.head, tail := src.tail,
                        roll := src.roll, connected := false, parent := none,
                        constraints := [] }])

/-- Modelled from the spec: `rigify_utils.add_pole_target_bone(obj, base,
name)` (repository code not under `src/`) creates a new edit bone named
`name` to use as a pole target, placed relative to the base bone.  The
claims constrain only its name and its later parenting, so its placement is
modelled as the base bone's span, with no parent. -/
def add_pole_target_bone (bones : List EBone) (base_name new_name : String) :
    Option (List EBone) :=
  match findBone bones base_name with
  | none => none
  | some base =>
      some (bones ++ [{ name := new_name, head := base.head, tail := base.tail,
                        roll := RollE.val 0, connected := false, parent := none,
                        constraints := [] }])

/-- Switch the host mode (`bpy.ops.object.mode_set`), recording the event. -/
def mode_set (s : Session) (m : Mode) : Session :=
  { s with mode := m, events := s.events ++ [Event.modeSet m] }

/-- Append a constraint to the named pose bone's stack
(`pose_bone.constraints.new` followed by the field assignments), recording
the creation event. -/
def addConstraint (s : Session) (bone_name : String) (c : Constraint) : Session :=
  { s with
      bones := updBone s.bones bone_name
        (fun b => { b with constraints := b.constraints ++ [c] }),
      events := s.events ++ [Event.conNew bone_name c.ctype] }

/-- The metarig slot names, from `METARIG_NAMES` in the source. -/
def METARIG_NAMES : List String := ["hips", "thigh", "shin", "foot", "toe"]

/-- Error message raised when the named bone has no parent. -/
def errNoParent : String := "expected the thigh bone to have a parent hip bone"

/-- Error message raised when a walked bone does not have exactly one child. -/
def errFork : String := "expected the thigh bone to have 3 children without a fork"

/-- Error message of the internal length consistency check. -/
def errInternal : String := "internal problem, expected 5 bones"

/-- The chain walk of `metarig_definition`: the `while chain < 3` loop.  At
each step the current bone must have exactly one child; the child becomes the
current bone and its name is appended. -/
def walkChain (bones : List EBone) (b : EBone) : Nat → Except String (List String)
  | 0 => Except.ok []
  | Nat.succ k =>
    match boneChildren bones b.name with
    | [c] => (walkChain bones c k).map (fun rest => c.name :: rest)
    | _ => Except.error errFork

/-- Embedding of `metarig_definition(obj, orig_bone_name)`.  `none` models
the host KeyError when the named bone does not exist; `Except.error` models a
raised `RigifyError`; `Except.ok` the returned list of bone names. -/
def metarig_definition (bones : List EBone) (orig_bone_name : String) :
    Option (Except String (List String)) :=
  match findBone bones orig_bone_name with
  | none => none
  | some orig_bone =>
    match orig_bone.parent with
    | none => some (Except.error errNoParent)
    | some parent_name =>
      match walkChain bones orig_bone 3 with
      | Except.error e => some (Except.error e)
      | Except.ok rest =>
        let bone_definition := parent_name :: orig_bone.name :: rest
        if bone_definition.length ≠ METARIG_NAMES.length then
          some (Except.error errInternal)
        else
          some (Except.ok bone_definition)

/-- State-passing computations over the armature: a value together with the
(possibly updated) armature state. -/
def StM (α : Type) : Type := List EBone → α × List EBone

/-- Return a value without touching the armature. -/
def stPure {α : Type} (a : α) : StM α := fun s => (a, s)

/-- Sequence two state-passing computations. -/
def stBind {α β : Type} (x : StM α) (f : α → StM β) : StM β :=
  fun s =>
    let p := x s
    f p.1 p.2

/-- Read a bone in state-passing style (`obj.data.bones[...]`). -/
def readBoneSt (n : String) : StM (Option EBone) := fun s => (findBone s n, s)

/-- Read the children of a bone in state-passing style (`bone.children`). -/
def readChildrenSt (n : String) : StM (List EBone) := fun s => (boneChildren s n, s)

/-- The chain walk of `metarig_definition` in state-passing style: every
armature access goes through a read primitive that returns the state it was
given. -/
def walkChainSt (b : EBone) : Nat → StM (Except String (List String))
  | 0 => stPure (Except.ok [])
  | Nat.succ k =>
    stBind (readChildrenSt b.name) (fun cs =>
      match cs with
      | [c] =>
          stBind (walkChainSt c k) (fun rest =>
            stPure (rest.map (fun names => c.name :: names)))
      | _ => stPure (Except.error errFork))

/-- Statement-by-statement state-passing mirror of `metarig_definition`: the
source only ever reads the armature (`bones[...]`, `.parent`, `.children`)
and builds a list of names, so every primitive it is built from returns the
state unchanged. -/
def metarig_definition_st (orig_bone_name : String) :
    StM (Option (Except String (List String))) :=
  stBind (readBoneSt orig_bone_name) (fun ob =>
    match ob with
    | none => stPure none
    | some orig_bone =>
      match orig_bone.parent with
      | none => stPure (some (Except.error errNoParent))
      | some parent_name =>
        stBind (walkChainSt orig_bone 3) (fun walked =>
          match walked with
          | Except.error e => stPure (some (Except.error e))
          | Except.ok rest =>
            let bone_definition := parent_name :: orig_bone.name :: rest
            if bone_definition.length ≠ METARIG_NAMES.length then
              stPure (some (Except.error errInternal))
            else
              stPure (some (Except.ok bone_definition))))

/-- Name of the knee pole-target bone created by `ik`. -/
def kneeTargetN : String := "knee_target"

/-- The MCH name part used by `ik` for the mechanism foot bones. -/
def mchPre : String := "MCH-"

/-- First block of `ik`, lines 119-139 of the source: the chain copy and its
re-parenting.  `ik_chain = mt_chain.copy(to_fmt="%s", base_names=base_names)`
copies each chain bone to a bone named `base_names[orig]`, keeping head,
tail, roll and connected, each copy parented to the copy of its predecessor
(the first keeps the original's parent); modelled from the spec, since
`rigify_utils.bone_class_instance.copy` is not under `src/`.  Then the IK
thigh is disconnected and parented to the hips, the IK foot is unparented
and renamed with "_ik" appended, the IK toe is disconnected, and the IK foot
is orientation-aligned with the metarig toe. -/
noncomputable def ikCopyChain (bs0 : List EBone)
    (hips thigh shin foot toe : String) (base_names : String → String) :
    Option (List EBone) := do
  let thighB ← findBone bs0 thigh
  let shinB ← findBone bs0 shin
  let footB ← findBone bs0 foot
  let toeB ← findBone bs0 toe
  let ikThigh := base_names thigh
  let ikShin := base_names shin
  let ikFoot0 := base_names foot
  let ikToe := base_names toe
  let bs1 := bs0 ++
    [{ thighB with name := ikThigh, constraints := [] },
     { shinB with name := ikShin, parent := some ikThigh, constraints := [] },
     { footB with name := ikFoot0, parent := some ikShin, constraints := [] },
     { toeB with name := ikToe, parent := some ikFoot0, constraints := [] }]
  -- ik_chain.thigh_e.connected = False; ik_chain.thigh_e.parent = mt.hips_e
  let bs2 := updBone bs1 ikThigh
    (fun b => { b with connected := false, parent := some hips })
  -- ik_chain.foot_e.parent = None
  let bs3 := updBone bs2 ikFoot0 (fun b => { b with parent := none })
  -- ik_chain.rename("foot", ik_chain.foot + "_ik")
  let ikFoot := ikFoot0 ++ "_ik"
  let bs4 := renameBone bs3 ikFoot0 ikFoot
  -- ik_chain.toe_e.connected = False  (keeps the foot_ik as the parent)
  let bs5 := updBone bs4 ikToe (fun b => { b with connected := false })
  -- ik_chain.foot_e.align_orientation(mt_chain.toe_e)
  let toeB1 ← findBone bs5 toe
  some (updBone bs5 ikFoot (fun b => b.align_orientation toeB1))

/-- Second block of `ik`, lines 144-146 of the source: the knee pole-target
bone, parented to the hips. -/
def ikKneeTarget (bs : List EBone) (hips shin : String) : Option (List EBone) := do
  -- ik.knee_target = add_pole_target_bone(obj, mt_chain.shin, "knee_target")
  let bs7 ← add_pole_target_bone bs shin kneeTargetN
  -- ik.knee_target_e.parent = mt.hips_e
  some (updBone bs7 kneeTargetN (fun b => { b with parent := some hips }))

/-- Third block of `ik`, lines 148-154 of the source: the foot-roll control
bone. -/
noncomputable def ikFootRoll (bs : List EBone) (foot toe : String)
    (base_names : String → String) : Option (List EBone) := do
  -- ik.foot_roll_e = copy_bone_simple(arm, mt_chain.toe, base_names[foot] + "_roll")
  let footRoll := base_names foot ++ "_roll"
  let ikFoot := base_names foot ++ "_ik"
  let bs9 ← copy_bone_simple bs toe footRoll
  -- ik.foot_roll_e.parent = ik_chain.foot_e
  let bs10 := updBone bs9 footRoll (fun b => { b with parent := some ikFoot })
  -- ik.foot_roll_e.translate(- (mt_chain.toe_e.vector.normalize() * mt_chain.foot_e.length))
  let toeB2 ← findBone bs10 toe
  let footB2 ← findBone bs10 foot
  let bs11 := updBone bs10 footRoll
    (fun b => b.translate (-(footB2.length • V3.normalize toeB2.vec)))
  -- ik.foot_roll_e.align_orientation(mt_chain.foot_e)
  let bs12 := updBone bs11 footRoll (fun b => b.align_orientation footB2)
  -- ik.foot_roll_e.tail = ik.foot_roll_e.head - ik.foot_roll_e.vector  (flip)
  let bs13 := updBone bs12 footRoll (fun b => { b with tail := b.head - b.vec })
  -- ik.foot_roll_e.align_roll(mt_chain.foot_e.matrix.rotationPart() * Vector(0.0, 0.0, -1.0))
  let footB3 ← findBone bs13 foot
  some (updBone bs13 footRoll (fun b => b.align_roll (footB3.matrixRotApp negZ)))

/-- Fourth block of `ik`, lines 156-167 of the source: the MCH foot bone
(foot_roll_01), the foot IK-target bone, and foot_roll_02. -/
noncomputable def ikFootMch (bs : List EBone) (foot : String)
    (base_names : String → String) : Option (List EBone) := do
  let ikFoot := base_names foot ++ "_ik"
  let footRoll := base_names foot ++ "_roll"
  -- ik.foot_roll_01_e = copy_bone_simple(arm, mt_chain.foot, "MCH-" + base_names[foot])
  let mch01 := mchPre ++ base_names foot
  let bs15 ← copy_bone_simple bs foot mch01
  -- ik.foot_roll_01_e.parent = ik_chain.foot_e
  let bs16 := updBone bs15 mch01 (fun b => { b with parent := some ikFoot })
  -- ik.foot_roll_01_e.head, ik.foot_roll_01_e.tail = mt_chain.foot_e.tail, mt_chain.foot_e.head
  let footB4 ← findBone bs16 foot
  let bs17 := updBone bs16 mch01
    (fun b => { b with head := footB4.tail, tail := footB4.head })
  -- ik.foot_roll_01_e.roll = ik.foot_roll_e.roll
  let footRollB ← findBone bs17 footRoll
  let bs18 := updBone bs17 mch01 (fun b => { b with roll := footRollB.roll })
  -- ik.foot_target_e = copy_bone_simple(arm, mt_chain.foot, base_names[foot] + "_ik_target")
  let footTarget := base_names foot ++ "_ik_target"
  let bs19 ← copy_bone_simple bs18 foot footTarget
  -- ik.foot_target_e.parent = ik.foot_roll_01_e
  let bs20 := updBone bs19 footTarget (fun b => { b with parent := some mch01 })
  -- ik.foot_target_e.align_orientation(ik_chain.foot_e)
  let ikFootB ← findBone bs20 ikFoot
  let bs21 := updBone bs20 footTarget (fun b => b.align_orientation ikFootB)
  -- ik.foot_target_e.length = ik_chain.foot_e.length / 2.0
  let bs22 := updBone bs21 footTarget (fun b => b.setLength (ikFootB.length / 2))
  -- ik.foot_target_e.connected = True
  let bs23 := updBone bs22 footTarget (fun b => { b with connected := true })
  -- ik.foot_roll_02_e = copy_bone_simple(arm, mt_chain.foot, "MCH-%s_02" % base_names[foot])
  let mch02 := mchPre ++ base_names foot ++ "_02"
  let bs24 ← copy_bone_simple bs23 foot mch02
  -- ik.foot_roll_02_e.parent = ik.foot_roll_01_e
  some (updBone bs24 mch02 (fun b => { b with parent := some mch01 }))

/-- Fifth block of `ik`, lines 170-218 of the source: the switch to OBJECT
mode, the constraint wiring, and the switch back to EDIT mode. -/
def ikConstraintPhase (s : Session) (thigh shin foot toe : String)
    (base_names : String → String) : Session :=
  -- bpy.ops.object.mode_set(mode="OBJECT")
  let s1 := mode_set s Mode.objectMode
  -- con = mt_chain.thigh_p.constraints.new("COPY_ROTATION"); target; subtarget
  let s2 := addConstraint s1 thigh
    { newConstraint CType.copyRotation with
        target := some TargetRef.rigObject, subtarget := base_names thigh }
  let s3 := addConstraint s2 shin
    { newConstraint CType.copyRotation with
        target := some TargetRef.rigObject, subtarget := base_names shin }
  let s4 := addConstraint s3 foot
    { newConstraint CType.copyRotation with
        target := some TargetRef.rigObject,
        subtarget := mchPre ++ base_names foot ++ "_02" }
  let s5 := addConstraint s4 toe
    { newConstraint CType.copyRotation with
        target := some TargetRef.rigObject, subtarget := base_names toe }
  let s6 := addConstraint s5 (mchPre ++ base_names foot)
    { newConstraint CType.copyRotation with
        target := some TargetRef.rigObject,
        subtarget := base_names foot ++ "_roll" }
  -- con = ik_chain.shin_p.constraints.new("IK") with the field assignments
  let s7 := addConstraint s6 (base_names shin)
    { newConstraint CType.ikSolver with
        chain_length := 2, iterations := 500, pole_angle := -90,
        use_tail := true, use_stretch := true, use_target := true,
        use_rotation := false, weight := 1,
        target := some TargetRef.rigObject,
        subtarget := base_names foot ++ "_ik_target",
        pole_target := some TargetRef.rigObject,
        pole_subtarget := kneeTargetN }
  -- bpy.ops.object.mode_set(mode="EDIT")
  mode_set s7 Mode.editMode

/-- Embedding of `ik(obj, bone_definition, base_names, options)`.  The five
entries of `bone_definition` are the hips, thigh, shin, foot and toe bone
names.  Returns the final session and the tuple returned by the source
(`None` plus the four IK chain bone names); `none` models a host KeyError on
a missing bone or a malformed `bone_definition`.  The body is the source's
statement sequence, grouped into the five blocks above. -/
noncomputable def ik (s0 : Session) (bone_definition : List String)
    (base_names : String → String) :
    Option (Session × (Option String × String × String × String × String)) :=
  match bone_definition with
  | [hips, thigh, shin, foot, toe] => do
    let bs6 ← ikCopyChain s0.bones hips thigh shin foot toe base_names
    let bs8 ← ikKneeTarget bs6 hips shin
    let bs14 ← ikFootRoll bs8 foot toe base_names
    let bs25 ← ikFootMch bs14 foot base_names
    let s8 := ikConstraintPhase { s0 with bones := bs25 } thigh shin foot toe base_names
    -- return None, ik_chain.thigh, ik_chain.shin, ik_chain.foot, ik_chain.toe
    some (s8, (none, base_names thigh, base_names shin,
               base_names foot ++ "_ik", base_names toe))
  | _ => none

/-- Name of the metarig hips bone in the instantiation below. -/
def hipsN : String := "hips"

/-- Name of the metarig thigh bone in the instantiation below. -/
def thighN : String := "thigh"

/-- Name of the metarig shin bone in the instantiation below. -/
def shinN : String := "shin"

/-- Name of the metarig foot bone in the instantiation below. -/
def footN : String := "foot"

/-- Name of the metarig toe bone in the instantiation below. -/
def toeN : String := "toe"

/-- Base-name scheme of the instantiation below: the `base_names` dictionary
maps every original bone name to it prefixed with "ik.", so every generated
name is distinct from every metarig name. -/
def ikBase (n : String) : String := "ik." ++ n

/-- The bone definition list handed to `ik`, as produced by
`metarig_definition` on the metarig chain. -/
def defnNames : List String := [hipsN, thighN, shinN, footN, toeN]

/-- Geometry of one metarig bone: head, tail and (numeric) roll. -/
structure BoneGeom where
  head : V3
  tail : V3
  roll : ℝ

/-- Geometry of the whole metarig chain; the claims are quantified over it. -/
structure Geom where
  hips : BoneGeom
  thigh : BoneGeom
  shin : BoneGeom
  foot : BoneGeom
  toe : BoneGeom

/-- Build a metarig bone from its geometry. -/
def mkBone (n : String) (g : BoneGeom) (conn : Bool) (par : Option String) : EBone :=
  { name := n, head := g.head, tail := g.tail, roll := RollE.val g.roll,
    connected := conn, parent := par, constraints := [] }

/-- The valid input session: the five-bone metarig chain
hips ← thigh ← shin ← foot ← toe (connected as in the metarig template), in
edit mode, with no constraints and an empty event log. -/
def mkSession (g : Geom) : Session :=
  { bones := [mkBone hipsN g.hips false none,
              mkBone thighN g.thigh false (some hipsN),
              mkBone shinN g.shin true (some thighN),
              mkBone footN g.foot true (some shinN),
              mkBone toeN g.toe true (some footN)],
    mode := Mode.editMode, events := [] }

/-- Run `ik` on the valid input session. -/
noncomputable def ikDemo (g : Geom) :
    Option (Session × (Option String × String × String × String × String)) :=
  ik (mkSession g) defnNames ikBase

/-- The session after `ik` has run on the valid input session. -/
noncomputable def ikDemoResult (g : Geom) : Session :=
  ((ikDemo g).getD (mkSession g, (none, "", "", "", ""))).1

/-- Name of the IK thigh bone in the instantiation. -/
def ikThighN : String := ikBase thighN

/-- Name of the IK shin bone in the instantiation. -/
def ikShinN : String := ikBase shinN

/-- Name of the IK toe bone in the instantiation. -/
def ikToeN : String := ikBase toeN

/-- Name of the IK foot bone: the copied foot name with "_ik" appended. -/
def footIkN : String := ikBase footN ++ "_ik"

/-- Name of the foot-roll control bone. -/
def footRollN : String := ikBase footN ++ "_roll"

/-- Name of the MCH foot bone (foot_roll_01). -/
def mch01N : String := mchPre ++ ikBase footN

/-- Name of the foot IK-target bone. -/
def footTargetN : String := ikBase footN ++ "_ik_target"

/-- Name of the second MCH foot bone (foot_roll_02). -/
def mch02N : String := mchPre ++ ikBase footN ++ "_02"

/-- Parent of the named bone in a session's armature. -/
def parentOf (s : Session) (n : String) : Option (Option String) :=
  (findBone s.bones n).map EBone.parent

/-- Connected flag of the named bone in a session's armature. -/
def connOf (s : Session) (n : String) : Option Bool :=
  (findBone s.bones n).map EBone.connected

/-- Head of the named bone in a session's armature. -/
def headOf (s : Session) (n : String) : Option V3 :=
  (findBone s.bones n).map EBone.head

/-- Tail of the named bone in a session's armature. -/
def tailOf (s : Session) (n : String) : Option V3 :=
  (findBone s.bones n).map EBone.tail

/-- Roll of the named bone in a session's armature. -/
def rollOf (s : Session) (n : String) : Option RollE :=
  (findBone s.bones n).map EBone.roll

/-- Constraint stack of the named bone in a session's armature. -/
def consOf (s : Session) (n : String) : Option (List Constraint) :=
  (findBone s.bones n).map EBone.constraints

/-- Head-to-tail vector of the named bone in a session's armature. -/
def vecOf (s : Session) (n : String) : Option V3 :=
  (findBone s.bones n).map EBone.vec

/-- Head-to-tail vector of the metarig toe bone of a chain geometry. -/
noncomputable def toeVecG (g : Geom) : V3 := g.toe.tail - g.toe.head

/-- Head-to-tail vector of the metarig foot bone of a chain geometry. -/
noncomputable def footVecG (g : Geom) : V3 := g.foot.tail - g.foot.head

/-- Head-to-tail vector of the IK foot bone after `ik` aligned it with the
toe: the normalized toe vector scaled by the metarig foot length. -/
noncomputable def ikFootVecG (g : Geom) : V3 :=
  V3.len (footVecG g) • V3.normalize (toeVecG g)

/-- The hips bone, which `ik` never edits. -/
def hipsB0 (g : Geom) : EBone := mkBone hipsN g.hips false none

/-- The metarig thigh bone, whose edit data `ik` never changes. -/
def thighB0 (g : Geom) : EBone := mkBone thighN g.thigh false (some hipsN)

/-- The metarig shin bone, whose edit data `ik` never changes. -/
def shinB0 (g : Geom) : EBone := mkBone shinN g.shin true (some thighN)

/-- The metarig foot bone, whose edit data `ik` never changes. -/
def footB0 (g : Geom) : EBone := mkBone footN g.foot true (some shinN)

/-- The metarig toe bone, whose edit data `ik` never changes. -/
def toeB0 (g : Geom) : EBone := mkBone toeN g.toe true (some footN)

/-- The IK thigh bone as `ik` leaves it in edit data. -/
def ikThighF (g : Geom) : EBone :=
  { name := ikThighN, head := g.thigh.head, tail := g.thigh.tail,
    roll := RollE.val g.thigh.roll, connected := false, parent := some hipsN,
    constraints := [] }

/-- The IK shin bone as `ik` leaves it in edit data. -/
def ikShinF (g : Geom) : EBone :=
  { name := ikShinN, head := g.shin.head, tail := g.shin.tail,
    roll := RollE.val g.shin.roll, connected := true, parent := some ikThighN,
    constraints := [] }

/-- The IK foot bone as `ik` leaves it: renamed with "_ik" appended, no
parent, orientation-aligned with the metarig toe. -/
noncomputable def footIkF (g : Geom) : EBone :=
  { name := footIkN, head := g.foot.head,
    tail := g.foot.head +
      V3.len (g.foot.tail - g.foot.head) • V3.normalize (g.toe.tail - g.toe.head),
    roll := RollE.val g.toe.roll, connected := true, parent := none,
    constraints := [] }

/-- The IK toe bone as `ik` leaves it: disconnected, parented to the IK foot. -/
def ikToeF (g : Geom) : EBone :=
  { name := ikToeN, head := g.toe.head, tail := g.toe.tail,
    roll := RollE.val g.toe.roll, connected := false, parent := some footIkN,
    constraints := [] }

/-- The knee pole-target bone as `ik` leaves it: a child of the hips. -/
def kneeF (g : Geom) : EBone :=
  { name := kneeTargetN, head := g.shin.head, tail := g.shin.tail,
    roll := RollE.val 0, connected := false, parent := some hipsN,
    constraints := [] }

/-- The foot-roll control bone as `ik` leaves it: the toe translated
backwards by the foot length, aligned with the foot, flipped, with the roll
realigned to the foot matrix rotation applied to (0, 0, -1). -/
noncomputable def footRollF (g : Geom) : EBone :=
  { name := footRollN,
    head := g.toe.head +
      -(V3.len (g.foot.tail - g.foot.head) • V3.normalize (g.toe.tail - g.toe.head)),
    tail := (g.toe.head +
      -(V3.len (g.foot.tail - g.foot.head) • V3.normalize (g.toe.tail - g.toe.head))) -
      V3.len (g.toe.tail - g.toe.head) • V3.normalize (g.foot.tail - g.foot.head),
    roll := RollE.aligned
      (VecE.rotApp g.foot.head g.foot.tail (RollE.val g.foot.roll) negZ),
    connected := false, parent := some footIkN, constraints := [] }

/-- The MCH foot bone (foot_roll_01) as `ik` leaves it: spanning the foot
from tail to head, roll copied from the foot-roll bone. -/
noncomputable def mch01F (g : Geom) : EBone :=
  { name := mch01N, head := g.foot.tail, tail := g.foot.head,
    roll := RollE.aligned
      (VecE.rotApp g.foot.head g.foot.tail (RollE.val g.foot.roll) negZ),
    connected := false, parent := some footIkN, constraints := [] }

/-- The foot IK-target bone as `ik` leaves it: a connected child of the MCH
foot bone, aligned with the IK foot and cut to half its length. -/
noncomputable def footTargetF (g : Geom) : EBone :=
  { name := footTargetN, head := g.foot.head,
    tail := g.foot.head +
      (V3.len (V3.len (g.foot.tail - g.foot.head) •
          V3.normalize (g.toe.tail - g.toe.head)) / 2) •
        V3.normalize (V3.len (g.foot.tail - g.foot.head) •
          V3.normalize (V3.len (g.foot.tail - g.foot.head) •
            V3.normalize (g.toe.tail - g.toe.head))),
    roll := RollE.val g.toe.roll, connected := true, parent := some mch01N,
    constraints := [] }

/-- The second MCH foot bone (foot_roll_02) as `ik` leaves it: a copy of the
foot parented to the MCH foot bone. -/
def mch02F (g : Geom) : EBone :=
  { name := mch02N, head := g.foot.head, tail := g.foot.tail,
    roll := RollE.val g.foot.roll, connected := false, parent := some mch01N,
    constraints := [] }

/-- Armature contents after the chain-copy block of `ik`. -/
noncomputable def bonesAfterChain (g : Geom) : List EBone :=
  [hipsB0 g, thighB0 g, shinB0 g, footB0 g, toeB0 g,
   ikThighF g, ikShinF g, footIkF g, ikToeF g]

/-- Armature contents after the knee-target block of `ik`. -/
noncomputable def bonesAfterKnee (g : Geom) : List EBone :=
  bonesAfterChain g ++ [kneeF g]

/-- Armature contents after the foot-roll block of `ik`. -/
noncomputable def bonesAfterRoll (g : Geom) : List EBone :=
  bonesAfterKnee g ++ [footRollF g]

/-- Armature contents after the MCH block of `ik`. -/
noncomputable def bonesAfterMch (g : Geom) : List EBone :=
  bonesAfterRoll g ++ [mch01F g, footTargetF g, mch02F g]

/-- The COPY_ROTATION constraint added by `ik`: target is the rig object
itself, subtarget the given bone. -/
def crCon (sub : String) : Constraint :=
  { ctype := CType.copyRotation, target := some TargetRef.rigObject,
    subtarget := sub }

/-- The single IK constraint added by `ik` to the IK shin pose bone. -/
def ikTheCon : Constraint :=
  { ctype := CType.ikSolver, target := some TargetRef.rigObject,
    subtarget := footTargetN, chain_length := 2, iterations := 500,
    pole_angle := -90, use_tail := true, use_stretch := true,
    use_target := true, use_rotation := false, weight := 1,
    pole_target := some TargetRef.rigObject, pole_subtarget := kneeTargetN }

/-- The event log produced by one run of `ik`: one switch to OBJECT mode,
the six constraint creations, one switch back to EDIT mode. -/
def ikEvents : List Event :=
  [Event.modeSet Mode.objectMode,
   Event.conNew thighN CType.copyRotation,
   Event.conNew shinN CType.copyRotation,
   Event.conNew footN CType.copyRotation,
   Event.conNew toeN CType.copyRotation,
   Event.conNew mch01N CType.copyRotation,
   Event.conNew ikShinN CType.ikSolver,
   Event.modeSet Mode.editMode]

/-- The session `ik` produces on the valid input session. -/
noncomputable def ikFinal (g : Geom) : Session :=
  { bones :=
      [hipsB0 g,
       { thighB0 g with constraints := [crCon ikThighN] },
       { shinB0 g with constraints := [crCon ikShinN] },
       { footB0 g with constraints := [crCon mch02N] },
       { toeB0 g with constraints := [crCon ikToeN] },
       ikThighF g,
       { ikShinF g with constraints := [ikTheCon] },
       footIkF g, ikToeF g, kneeF g, footRollF g,
       { mch01F g with constraints := [crCon footRollN] },
       footTargetF g, mch02F g],
    mode := Mode.editMode,
    events := ikEvents }

/-- The tuple `ik` returns on the valid input session. -/
def ikRetVal : Option String × String × String × String × String :=
  (none, ikThighN, ikShinN, footIkN, ikToeN)

/-- Length of the named bone in a session's armature. -/
noncomputable def lenOfB (s : Session) (n : String) : Option ℝ :=
  (findBone s.bones n).map EBone.length

/-- Decidable check of the chain topology `metarig_definition` walks: the
given bone, its single child, and its single grandchild must each have
exactly one child. -/
def chainSingles (bones : List EBone) (b : EBone) : Bool :=
  match boneChildren bones b.name with
  | [c] =>
    match boneChildren bones c.name with
    | [d] =>
      match boneChildren bones d.name with
      | [_] => true
      | _ => false
    | _ => false
  | _ => false

/-- Concrete chain geometry used by the witnesses: unit-length bones with
nonzero foot and toe vectors. -/
def gDemo : Geom :=
  { hips := { head := ⟨0, 0, 2⟩, tail := ⟨0, 1, 2⟩, roll := 0 },
    thigh := { head := ⟨0, 0, 2⟩, tail := ⟨0, 0, 1⟩, roll := 0 },
    shin := { head := ⟨0, 0, 1⟩, tail := ⟨0, 0, 0⟩, roll := 0 },
    foot := { head := ⟨0, 0, 0⟩, tail := ⟨0, 1, 0⟩, roll := 0 },
    toe := { head := ⟨0, 1, 0⟩, tail := ⟨0, 2, 0⟩, roll := 0 } }

/-- Name of the single bone of the one-bone witness armature. -/
def aN : String := "a"

/-- The single parentless bone of the one-bone witness armature. -/
def demoBoneA : EBone :=
  { name := aN, head := 0, tail := 0, roll := RollE.val 0, connected := false,
    parent := none, constraints := [] }

/-- A one-bone armature whose only bone has no parent. -/
def demoArmA : List EBone := [demoBoneA]

/-! ### Helper lemmas about the vector arithmetic -/

theorem V3.add_x (a b : V3) : (a + b).x = a.x + b.x := rfl

theorem V3.add_y (a b : V3) : (a + b).y = a.y + b.y := rfl

theorem V3.add_z (a b : V3) : (a + b).z = a.z + b.z := rfl

theorem V3.sub_x (a b : V3) : (a - b).x = a.x - b.x := rfl

theorem V3.sub_y (a b : V3) : (a - b).y = a.y - b.y := rfl

theorem V3.sub_z (a b : V3) : (a - b).z = a.z - b.z := rfl

theorem V3.smul_x (c : ℝ) (v : V3) : (c • v).x = c * v.x := rfl

theorem V3.smul_y (c : ℝ) (v : V3) : (c • v).y = c * v.y := rfl

theorem V3.smul_z (c : ℝ) (v : V3) : (c • v).z = c * v.z := rfl

theorem V3.zero_x : (0 : V3).x = 0 := rfl

theorem V3.zero_y : (0 : V3).y = 0 := rfl

theorem V3.zero_z : (0 : V3).z = 0 := rfl

theorem V3.eq_of_comp (a b : V3) (hx : a.x = b.x) (hy : a.y = b.y)
    (hz : a.z = b.z) : a = b := by
  cases a
  cases b
  simp only at hx hy hz
  simp [hx, hy, hz]

theorem v3_add_sub_add (a b c : V3) : (a + c) - (b + c) = a - b := by
  apply V3.eq_of_comp <;>
    simp only [V3.add_x, V3.add_y, V3.add_z, V3.sub_x, V3.sub_y, V3.sub_z] <;> ring

theorem v3_add_sub_cancel (a b : V3) : (a + b) - a = b := by
  apply V3.eq_of_comp <;>
    simp only [V3.add_x, V3.add_y, V3.add_z, V3.sub_x, V3.sub_y, V3.sub_z] <;> ring

theorem v3_smul_smul (c d : ℝ) (v : V3) : c • (d • v) = (c * d) • v := by
  apply V3.eq_of_comp <;>
    simp only [V3.smul_x, V3.smul_y, V3.smul_z] <;> ring

theorem V3.len_nonneg (v : V3) : 0 ≤ V3.len v := Real.sqrt_nonneg _

theorem V3.len_eq_zero_iff (v : V3) : V3.len v = 0 ↔ v = 0 := by
  constructor
  · intro h
    have h0 : 0 ≤ v.x ^ 2 + v.y ^ 2 + v.z ^ 2 := by positivity
    have hsum : v.x ^ 2 + v.y ^ 2 + v.z ^ 2 = 0 :=
      (Real.sqrt_eq_zero h0).mp h
    have hx : v.x = 0 := by nlinarith [sq_nonneg v.x, sq_nonneg v.y, sq_nonneg v.z]
    have hy : v.y = 0 := by nlinarith [sq_nonneg v.x, sq_nonneg v.y, sq_nonneg v.z]
    have hz : v.z = 0 := by nlinarith [sq_nonneg v.x, sq_nonneg v.y, sq_nonneg v.z]
    exact V3.eq_of_comp _ _ (by simp [hx, V3.zero_x]) (by simp [hy, V3.zero_y])
      (by simp [hz, V3.zero_z])
  · intro h
    subst h
    show Real.sqrt ((0 : ℝ) ^ 2 + (0 : ℝ) ^ 2 + (0 : ℝ) ^ 2) = 0
    simp

theorem V3.len_pos (v : V3) (h : v ≠ 0) : 0 < V3.len v :=
  lt_of_le_of_ne (V3.len_nonneg v) (fun h0 => h ((V3.len_eq_zero_iff v).mp h0.symm))

theorem V3.len_smul (c : ℝ) (v : V3) : V3.len (c • v) = |c| * V3.len v := by
  show Real.sqrt ((c * v.x) ^ 2 + (c * v.y) ^ 2 + (c * v.z) ^ 2) = _
  have h : (c * v.x) ^ 2 + (c * v.y) ^ 2 + (c * v.z) ^ 2 =
      c ^ 2 * (v.x ^ 2 + v.y ^ 2 + v.z ^ 2) := by ring
  rw [h, Real.sqrt_mul (sq_nonneg c), Real.sqrt_sq_eq_abs]
  rfl

theorem V3.len_normalize (v : V3) (h : v ≠ 0) : V3.len (V3.normalize v) = 1 := by
  unfold V3.normalize
  rw [V3.len_smul]
  have hl : V3.len v ≠ 0 := fun h0 => h ((V3.len_eq_zero_iff v).mp h0)
  rw [abs_of_nonneg (inv_nonneg.mpr (V3.len_nonneg v))]
  exact inv_mul_cancel₀ hl

theorem V3.one_smul (v : V3) : (1 : ℝ) • v = v := by
  apply V3.eq_of_comp <;> simp only [V3.smul_x, V3.smul_y, V3.smul_z] <;> ring

theorem V3.normalize_smul_of_pos (c : ℝ) (v : V3) (h : 0 < c) :
    V3.normalize (c • v) = V3.normalize v := by
  unfold V3.normalize
  rw [V3.len_smul, abs_of_pos h, v3_smul_smul, mul_inv_rev, mul_assoc,
    inv_mul_cancel₀ (ne_of_gt h), mul_one]

theorem V3.normalize_normalize (v : V3) (h : v ≠ 0) :
    V3.normalize (V3.normalize v) = V3.normalize v := by
  show (V3.len (V3.normalize v))⁻¹ • V3.normalize v = V3.normalize v
  rw [V3.len_normalize v h, inv_one, V3.one_smul]

/-! ### Evaluation of `ik` on the valid input session -/

theorem eval_chain (g : Geom) :
    ikCopyChain (mkSession g).bones hipsN thighN shinN footN toeN ikBase =
      some (bonesAfterChain g) := by
  simp [ikCopyChain, mkSession, mkBone, findBone, updBone, renameBone,
    EBone.align_orientation, EBone.length, EBone.vec,
    hipsN, thighN, shinN, footN, toeN, ikBase,
    bonesAfterChain, hipsB0, thighB0, shinB0, footB0, toeB0,
    ikThighF, ikShinF, footIkF, ikToeF,
    ikThighN, ikShinN, footIkN, ikToeN,
    v3_add_sub_add, v3_add_sub_cancel]

theorem eval_knee (g : Geom) :
    ikKneeTarget (bonesAfterChain g) hipsN shinN = some (bonesAfterKnee g) := by
  simp [ikKneeTarget, add_pole_target_bone, findBone, updBone, kneeTargetN,
    bonesAfterChain, bonesAfterKnee, hipsB0, thighB0, shinB0, footB0, toeB0,
    mkBone, ikThighF, ikShinF, footIkF, ikToeF, kneeF, ikBase,
    hipsN, thighN, shinN, footN, toeN, ikThighN, ikShinN, footIkN, ikToeN]

theorem eval_roll (g : Geom) :
    ikFootRoll (bonesAfterKnee g) footN toeN ikBase = some (bonesAfterRoll g) := by
  simp [ikFootRoll, copy_bone_simple, findBone, updBone,
    EBone.translate, EBone.align_orientation, EBone.length, EBone.vec,
    EBone.align_roll, EBone.matrixRotApp,
    bonesAfterKnee, bonesAfterChain, bonesAfterRoll,
    hipsB0, thighB0, shinB0, footB0, toeB0, mkBone,
    ikThighF, ikShinF, footIkF, ikToeF, kneeF, footRollF,
    hipsN, thighN, shinN, footN, toeN, ikBase, kneeTargetN,
    ikThighN, ikShinN, footIkN, ikToeN, footRollN,
    v3_add_sub_add, v3_add_sub_cancel]

theorem eval_mch (g : Geom) :
    ikFootMch (bonesAfterRoll g) footN ikBase = some (bonesAfterMch g) := by
  simp [ikFootMch, copy_bone_simple, findBone, updBone,
    EBone.align_orientation, EBone.setLength, EBone.length, EBone.vec,
    bonesAfterRoll, bonesAfterKnee, bonesAfterChain, bonesAfterMch,
    hipsB0, thighB0, shinB0, footB0, toeB0, mkBone,
    ikThighF, ikShinF, footIkF, ikToeF, kneeF, footRollF,
    mch01F, footTargetF, mch02F, mchPre,
    hipsN, thighN, shinN, footN, toeN, ikBase, kneeTargetN,
    ikThighN, ikShinN, footIkN, ikToeN, footRollN, mch01N, footTargetN, mch02N,
    v3_add_sub_add, v3_add_sub_cancel]

theorem eval_cons (g : Geom) :
    ikConstraintPhase { mkSession g with bones := bonesAfterMch g }
      thighN shinN footN toeN ikBase = ikFinal g := by
  simp [ikConstraintPhase, mode_set, addConstraint, updBone, newConstraint,
    mkSession, mkBone, bonesAfterMch, bonesAfterRoll, bonesAfterKnee, bonesAfterChain,
    hipsB0, thighB0, shinB0, footB0, toeB0,
    ikThighF, ikShinF, footIkF, ikToeF, kneeF, footRollF,
    mch01F, footTargetF, mch02F, mchPre,
    hipsN, thighN, shinN, footN, toeN, ikBase, kneeTargetN,
    ikThighN, ikShinN, footIkN, ikToeN, footRollN, mch01N, footTargetN, mch02N,
    ikFinal, crCon, ikTheCon, ikEvents]

theorem ikDemo_eq (g : Geom) : ikDemo g = some (ikFinal g, ikRetVal) := by
  simp only [ikDemo, ik, defnNames]
  simp only [bind, Option.bind, eval_chain, eval_knee, eval_roll, eval_mch, eval_cons]
  rfl

theorem ikDemoResult_eq (g : Geom) : ikDemoResult g = ikFinal g := by
  rw [ikDemoResult, ikDemo_eq]
  rfl

/-! ### The claims -/

/-- C1: for every valid input bone chain (nonzero foot and toe vectors), `ik`
constructs the auxiliary foot bones with this exact geometry: the foot-roll
control bone is a copy of the toe bone translated by minus the normalized
toe-bone vector times the metarig foot-bone length, orientation-aligned
with the metarig foot bone and flipped so its tail equals its head minus
its vector, with its roll aligned to the foot matrix rotation applied to
(0, 0, -1); the MCH foot bone (foot_roll_01) has head equal to the metarig
foot bone's tail and tail equal to the metarig foot bone's head, with roll
copied from the foot-roll bone; and the foot IK-target bone is
orientation-aligned with the IK foot bone and has length exactly half the
IK foot bone's length. -/
theorem ik_aux_foot_bone_geometry (g : Geom)
    (ht : toeVecG g ≠ 0) (hf : footVecG g ≠ 0) :
    headOf (ikDemoResult g) footRollN =
      some (g.toe.head + -(V3.len (footVecG g) • V3.normalize (toeVecG g))) ∧
    tailOf (ikDemoResult g) footRollN =
      some ((g.toe.head + -(V3.len (footVecG g) • V3.normalize (toeVecG g))) -
        V3.len (toeVecG g) • V3.normalize (footVecG g)) ∧
    rollOf (ikDemoResult g) footRollN =
      some (RollE.aligned (VecE.rotApp g.foot.head g.foot.tail
        (RollE.val g.foot.roll) negZ)) ∧
    headOf (ikDemoResult g) mch01N = some g.foot.tail ∧
    tailOf (ikDemoResult g) mch01N = some g.foot.head ∧
    rollOf (ikDemoResult g) mch01N = rollOf (ikDemoResult g) footRollN ∧
    rollOf (ikDemoResult g) footTargetN = rollOf (ikDemoResult g) footIkN ∧
    vecOf (ikDemoResult g) footIkN = some (ikFootVecG g) ∧
    vecOf (ikDemoResult g) footTargetN =
      some ((V3.len (ikFootVecG g) / 2) • V3.normalize (ikFootVecG g)) ∧
    lenOfB (ikDemoResult g) footIkN = some (V3.len (ikFootVecG g)) ∧
    lenOfB (ikDemoResult g) footTargetN = some (V3.len (ikFootVecG g) / 2) := by
  have hF : 0 < V3.len (footVecG g) := V3.len_pos _ hf
  have hX2len : V3.len (ikFootVecG g) = V3.len (footVecG g) := by
    rw [ikFootVecG, V3.len_smul, V3.len_normalize _ ht, mul_one,
      abs_of_nonneg (V3.len_nonneg _)]
  have hX2 : ikFootVecG g ≠ 0 := by
    intro h0
    have hz := (V3.len_eq_zero_iff _).mpr h0
    rw [hX2len] at hz
    exact absurd hz (ne_of_gt hF)
  have hnorm : V3.normalize (V3.len (footVecG g) • V3.normalize (ikFootVecG g)) =
      V3.normalize (ikFootVecG g) := by
    rw [V3.normalize_smul_of_pos _ _ hF, V3.normalize_normalize _ hX2]
  have h9 : vecOf (ikDemoResult g) footTargetN =
      some ((V3.len (ikFootVecG g) / 2) •
        V3.normalize (V3.len (footVecG g) • V3.normalize (ikFootVecG g))) := by
    simp [vecOf, ikDemoResult_eq, ikFinal, findBone, EBone.vec,
      ikFootVecG, footVecG, toeVecG,
      hipsB0, thighB0, shinB0, footB0, toeB0, mkBone,
      ikThighF, ikShinF, footIkF, ikToeF, kneeF, footRollF,
      mch01F, footTargetF, mch02F, mchPre,
      hipsN, thighN, shinN, footN, toeN, ikBase, kneeTargetN,
      ikThighN, ikShinN, footIkN, ikToeN, footRollN, mch01N, footTargetN, mch02N,
      v3_add_sub_cancel]
  rw [hnorm] at h9
  have h11 : lenOfB (ikDemoResult g) footTargetN =
      some (V3.len ((V3.len (ikFootVecG g) / 2) •
        V3.normalize (V3.len (footVecG g) • V3.normalize (ikFootVecG g)))) := by
    simp [lenOfB, ikDemoResult_eq, ikFinal, findBone, EBone.length, EBone.vec,
      ikFootVecG, footVecG, toeVecG,
      hipsB0, thighB0, shinB0, footB0, toeB0, mkBone,
      ikThighF, ikShinF, footIkF, ikToeF, kneeF, footRollF,
      mch01F, footTargetF, mch02F, mchPre,
      hipsN, thighN, shinN, footN, toeN, ikBase, kneeTargetN,
      ikThighN, ikShinN, footIkN, ikToeN, footRollN, mch01N, footTargetN, mch02N,
      v3_add_sub_cancel]
  rw [hnorm] at h11
  have hhalf : V3.len ((V3.len (ikFootVecG g) / 2) • V3.normalize (ikFootVecG g)) =
      V3.len (ikFootVecG g) / 2 := by
    rw [V3.len_smul, V3.len_normalize _ hX2, mul_one,
      abs_of_nonneg (div_nonneg (V3.len_nonneg _) (by norm_num))]
  rw [hhalf] at h11
  refine ⟨?_, ?_, ?_, ?_, ?_, ?_, ?_, ?_, h9, ?_, h11⟩ <;>
    simp [headOf, tailOf, rollOf, vecOf, lenOfB, ikDemoResult_eq, ikFinal,
      findBone, EBone.vec, EBone.length, ikFootVecG, footVecG, toeVecG,
      hipsB0, thighB0, shinB0, footB0, toeB0, mkBone,
      ikThighF, ikShinF, footIkF, ikToeF, kneeF, footRollF,
      mch01F, footTargetF, mch02F, mchPre,
      hipsN, thighN, shinN, footN, toeN, ikBase, kneeTargetN,
      ikThighN, ikShinN, footIkN, ikToeN, footRollN, mch01N, footTargetN, mch02N,
      v3_add_sub_cancel]

/-- Witness for C1: the concrete chain geometry `gDemo` satisfies both
hypotheses and the first conjunct of the claim holds there. -/
theorem ik_aux_foot_bone_geometry_witness :
    toeVecG gDemo ≠ 0 ∧ footVecG gDemo ≠ 0 ∧
    headOf (ikDemoResult gDemo) footRollN =
      some (gDemo.toe.head +
        -(V3.len (footVecG gDemo) • V3.normalize (toeVecG gDemo))) := by
  have ht : toeVecG gDemo ≠ 0 := by
    intro h
    have h2 := congrArg V3.y h
    simp only [toeVecG, gDemo, V3.sub_y, V3.zero_y] at h2
    norm_num at h2
  have hf : footVecG gDemo ≠ 0 := by
    intro h
    have h2 := congrArg V3.y h
    simp only [footVecG, gDemo, V3.sub_y, V3.zero_y] at h2
    norm_num at h2
  exact ⟨ht, hf, (ik_aux_foot_bone_geometry gDemo ht hf).1⟩

/-- C2: after `ik` returns, the parenting topology of the generated bones is:
the IK thigh is a disconnected child of the hips bone; the IK foot bone has
no parent and its name is the copied foot name with "_ik" appended (it is
the foot name `ik` returns); the IK toe is disconnected but keeps the IK
foot as its parent; the knee-target pole bone is a child of the hips bone;
the foot-roll bone and the MCH foot bone (foot_roll_01) are children of the
IK foot bone; the foot IK-target bone is a connected child of foot_roll_01;
and foot_roll_02 is a child of foot_roll_01. -/
theorem ik_parenting_topology (g : Geom) :
    parentOf (ikDemoResult g) ikThighN = some (some hipsN) ∧
    connOf (ikDemoResult g) ikThighN = some false ∧
    parentOf (ikDemoResult g) footIkN = some none ∧
    (ikDemo g).map (fun p => p.2.2.2.2.1) = some (ikBase footN ++ "_ik") ∧
    parentOf (ikDemoResult g) ikToeN = some (some footIkN) ∧
    connOf (ikDemoResult g) ikToeN = some false ∧
    parentOf (ikDemoResult g) kneeTargetN = some (some hipsN) ∧
    parentOf (ikDemoResult g) footRollN = some (some footIkN) ∧
    parentOf (ikDemoResult g) mch01N = some (some footIkN) ∧
    parentOf (ikDemoResult g) footTargetN = some (some mch01N) ∧
    connOf (ikDemoResult g) footTargetN = some true ∧
    parentOf (ikDemoResult g) mch02N = some (some mch01N) := by
  refine ⟨?_, ?_, ?_, ?_, ?_, ?_, ?_, ?_, ?_, ?_, ?_, ?_⟩ <;>
    simp [parentOf, connOf, ikDemoResult_eq, ikDemo_eq, ikFinal, findBone,
      ikRetVal, hipsB0, thighB0, shinB0, footB0, toeB0, mkBone,
      ikThighF, ikShinF, footIkF, ikToeF, kneeF, footRollF,
      mch01F, footTargetF, mch02F, mchPre,
      hipsN, thighN, shinN, footN, toeN, ikBase, kneeTargetN,
      ikThighN, ikShinN, footIkN, ikToeN, footRollN, mch01N, footTargetN, mch02N]

/-- C3: `ik` adds exactly one COPY_ROTATION constraint to each of the
original thigh, shin, foot and toe pose bones and to the MCH foot pose bone
(foot_roll_01), whose subtargets are respectively the IK thigh, the IK
shin, the foot_roll_02 bone, the IK toe, and the foot-roll bone, and whose
target is in every case the rig object itself. -/
theorem ik_copy_rotation_constraints (g : Geom) :
    (∃ c, consOf (ikDemoResult g) thighN = some [c] ∧
      c.ctype = CType.copyRotation ∧ c.target = some TargetRef.rigObject ∧
      c.subtarget = ikThighN) ∧
    (∃ c, consOf (ikDemoResult g) shinN = some [c] ∧
      c.ctype = CType.copyRotation ∧ c.target = some TargetRef.rigObject ∧
      c.subtarget = ikShinN) ∧
    (∃ c, consOf (ikDemoResult g) footN = some [c] ∧
      c.ctype = CType.copyRotation ∧ c.target = some TargetRef.rigObject ∧
      c.subtarget = mch02N) ∧
    (∃ c, consOf (ikDemoResult g) toeN = some [c] ∧
      c.ctype = CType.copyRotation ∧ c.target = some TargetRef.rigObject ∧
      c.subtarget = ikToeN) ∧
    (∃ c, consOf (ikDemoResult g) mch01N = some [c] ∧
      c.ctype = CType.copyRotation ∧ c.target = some TargetRef.rigObject ∧
      c.subtarget = footRollN) := by
  refine ⟨⟨crCon ikThighN, ?_⟩, ⟨crCon ikShinN, ?_⟩, ⟨crCon mch02N, ?_⟩,
    ⟨crCon ikToeN, ?_⟩, ⟨crCon footRollN, ?_⟩⟩ <;>
    simp [consOf, ikDemoResult_eq, ikFinal, findBone, crCon,
      hipsB0, thighB0, shinB0, footB0, toeB0, mkBone,
      ikThighF, ikShinF, footIkF, ikToeF, kneeF, footRollF,
      mch01F, footTargetF, mch02F, mchPre,
      hipsN, thighN, shinN, footN, toeN, ikBase, kneeTargetN,
      ikThighN, ikShinN, footIkN, ikToeN, footRollN, mch01N, footTargetN, mch02N]

/-- C4: `ik` adds a single IK constraint to the IK shin pose bone with
chain_length 2, iterations 500, pole_angle -90.0, use_tail true,
use_stretch true, use_target true, use_rotation false, and weight 1.0,
whose target is the rig object with the foot IK-target bone as subtarget
and whose pole target is the rig object with the knee-target bone as pole
subtarget. -/
theorem ik_ik_constraint_fields (g : Geom) :
    ∃ c, consOf (ikDemoResult g) ikShinN = some [c] ∧
      c.ctype = CType.ikSolver ∧ c.chain_length = 2 ∧ c.iterations = 500 ∧
      c.pole_angle = -90 ∧ c.use_tail = true ∧ c.use_stretch = true ∧
      c.use_target = true ∧ c.use_rotation = false ∧ c.weight = 1 ∧
      c.target = some TargetRef.rigObject ∧ c.subtarget = footTargetN ∧
      c.pole_target = some TargetRef.rigObject ∧
      c.pole_subtarget = kneeTargetN := by
  refine ⟨ikTheCon, ?_⟩
  simp [consOf, ikDemoResult_eq, ikFinal, findBone, ikTheCon,
    hipsB0, thighB0, shinB0, footB0, toeB0, mkBone,
    ikThighF, ikShinF, footIkF, ikToeF, kneeF, footRollF,
    mch01F, footTargetF, mch02F, mchPre,
    hipsN, thighN, shinN, footN, toeN, ikBase, kneeTargetN,
    ikThighN, ikShinN, footIkN, ikToeN, footRollN, mch01N, footTargetN, mch02N]

/-- C7: every run of `ik` on the valid input session returns (the result is
`some`), and its event log is exactly one switch to OBJECT mode, followed by
the six constraint creations, followed by one switch back to EDIT mode, so
the session ends in EDIT mode. -/
theorem ik_mode_discipline (g : Geom) :
    (ikDemo g).isSome = true ∧
    (ikDemoResult g).mode = Mode.editMode ∧
    (ikDemoResult g).events =
      [Event.modeSet Mode.objectMode,
       Event.conNew thighN CType.copyRotation,
       Event.conNew shinN CType.copyRotation,
       Event.conNew footN CType.copyRotation,
       Event.conNew toeN CType.copyRotation,
       Event.conNew mch01N CType.copyRotation,
       Event.conNew ikShinN CType.ikSolver,
       Event.modeSet Mode.editMode] := by
  refine ⟨?_, ?_, ?_⟩ <;>
    simp [ikDemo_eq, ikDemoResult_eq, ikFinal, ikEvents]

/-- C9: `ik` never changes the head, tail, roll, connected flag or parent of
any of the five original metarig bones; the only mutation of the original
bones is the addition of the COPY_ROTATION constraints to their pose bones
(none on the hips). -/
theorem ik_preserves_original_bones (g : Geom) :
    headOf (ikDemoResult g) hipsN = headOf (mkSession g) hipsN ∧
    tailOf (ikDemoResult g) hipsN = tailOf (mkSession g) hipsN ∧
    rollOf (ikDemoResult g) hipsN = rollOf (mkSession g) hipsN ∧
    connOf (ikDemoResult g) hipsN = connOf (mkSession g) hipsN ∧
    parentOf (ikDemoResult g) hipsN = parentOf (mkSession g) hipsN ∧
    consOf (ikDemoResult g) hipsN = some [] ∧
    headOf (ikDemoResult g) thighN = headOf (mkSession g) thighN ∧
    tailOf (ikDemoResult g) thighN = tailOf (mkSession g) thighN ∧
    rollOf (ikDemoResult g) thighN = rollOf (mkSession g) thighN ∧
    connOf (ikDemoResult g) thighN = connOf (mkSession g) thighN ∧
    parentOf (ikDemoResult g) thighN = parentOf (mkSession g) thighN ∧
    consOf (ikDemoResult g) thighN = some [crCon ikThighN] ∧
    headOf (ikDemoResult g) shinN = headOf (mkSession g) shinN ∧
    tailOf (ikDemoResult g) shinN = tailOf (mkSession g) shinN ∧
    rollOf (ikDemoResult g) shinN = rollOf (mkSession g) shinN ∧
    connOf (ikDemoResult g) shinN = connOf (mkSession g) shinN ∧
    parentOf (ikDemoResult g) shinN = parentOf (mkSession g) shinN ∧
    consOf (ikDemoResult g) shinN = some [crCon ikShinN] ∧
    headOf (ikDemoResult g) footN = headOf (mkSession g) footN ∧
    tailOf (ikDemoResult g) footN = tailOf (mkSession g) footN ∧
    rollOf (ikDemoResult g) footN = rollOf (mkSession g) footN ∧
    connOf (ikDemoResult g) footN = connOf (mkSession g) footN ∧
    parentOf (ikDemoResult g) footN = parentOf (mkSession g) footN ∧
    consOf (ikDemoResult g) footN = some [crCon mch02N] ∧
    headOf (ikDemoResult g) toeN = headOf (mkSession g) toeN ∧
    tailOf (ikDemoResult g) toeN = tailOf (mkSession g) toeN ∧
    rollOf (ikDemoResult g) toeN = rollOf (mkSession g) toeN ∧
    connOf (ikDemoResult g) toeN = connOf (mkSession g) toeN ∧
    parentOf (ikDemoResult g) toeN = parentOf (mkSession g) toeN ∧
    consOf (ikDemoResult g) toeN = some [crCon ikToeN] := by
  refine ⟨?_, ?_, ?_, ?_, ?_, ?_, ?_, ?_, ?_, ?_, ?_, ?_, ?_, ?_, ?_, ?_, ?_,
    ?_, ?_, ?_, ?_, ?_, ?_, ?_, ?_, ?_, ?_, ?_, ?_, ?_⟩ <;>
    simp [headOf, tailOf, rollOf, connOf, parentOf, consOf,
      ikDemoResult_eq, ikFinal, mkSession, findBone, crCon,
      hipsB0, thighB0, shinB0, footB0, toeB0, mkBone,
      ikThighF, ikShinF, footIkF, ikToeF, kneeF, footRollF,
      mch01F, footTargetF, mch02F, mchPre,
      hipsN, thighN, shinN, footN, toeN, ikBase, kneeTargetN,
      ikThighN, ikShinN, footIkN, ikToeN, footRollN, mch01N, footTargetN, mch02N]

/-! ### Lemmas about the chain walk -/

theorem walkChain_ok_length (bones : List EBone) :
    ∀ (n : Nat) (b : EBone) (l : List String),
      walkChain bones b n = Except.ok l → l.length = n := by
  intro n
  induction n with
  | zero =>
    intro b l h
    simp only [walkChain] at h
    cases h
    rfl
  | succ k ih =>
    intro b l h
    rcases hc : boneChildren bones b.name with _ | ⟨c, t⟩
    · simp [walkChain, hc] at h
    · rcases t with _ | ⟨c2, t2⟩
      · simp only [walkChain, hc] at h
        rcases hw : walkChain bones c k with e | l2
        · simp [hw, Except.map] at h
        · simp [hw, Except.map] at h
          subst h
          simp [ih c l2 hw]
      · simp [walkChain, hc] at h

theorem walkChain_error_eq (bones : List EBone) :
    ∀ (n : Nat) (b : EBone) (e : String),
      walkChain bones b n = Except.error e → e = errFork := by
  intro n
  induction n with
  | zero =>
    intro b e h
    simp only [walkChain] at h
    cases h
  | succ k ih =>
    intro b e h
    rcases hc : boneChildren bones b.name with _ | ⟨c, t⟩
    · simp [walkChain, hc] at h
      exact h.symm
    · rcases t with _ | ⟨c2, t2⟩
      · simp only [walkChain, hc] at h
        rcases hw : walkChain bones c k with e2 | l2
        · simp [hw, Except.map] at h
          subst h
          exact ih c e2 hw
        · simp [hw, Except.map] at h
      · simp [walkChain, hc] at h
        exact h.symm

/-- C5: `metarig_definition` raises a RigifyError if and only if the
expected bone topology is absent: either the named bone has no parent, or
one of the first three bones walked down from it (the named bone, its
child, and its grandchild) does not have exactly one child. -/
theorem metarig_definition_error_iff (bones : List EBone) (orig : String)
    (ob : EBone) (h : findBone bones orig = some ob) :
    (∃ e, metarig_definition bones orig = some (Except.error e)) ↔
      (ob.parent = none ∨ chainSingles bones ob = false) := by
  rcases hp : ob.parent with _ | p
  · simp [metarig_definition, h, hp]
  · rcases h1 : boneChildren bones ob.name with _ | ⟨c1, t1⟩
    · simp [metarig_definition, h, hp, walkChain, h1, chainSingles, Except.map]
    · rcases t1 with _ | ⟨c1b, t1c⟩
      · rcases h2 : boneChildren bones c1.name with _ | ⟨c2, t2⟩
        · simp [metarig_definition, h, hp, walkChain, h1, h2, chainSingles, Except.map]
        · rcases t2 with _ | ⟨c2b, t2c⟩
          · rcases h3 : boneChildren bones c2.name with _ | ⟨c3, t3⟩
            · simp [metarig_definition, h, hp, walkChain, h1, h2, h3,
                chainSingles, Except.map]
            · rcases t3 with _ | ⟨c3b, t3c⟩
              · simp [metarig_definition, h, hp, walkChain, h1, h2, h3,
                  chainSingles, METARIG_NAMES, Except.map]
              · simp [metarig_definition, h, hp, walkChain, h1, h2, h3,
                  chainSingles, Except.map]
          · simp [metarig_definition, h, hp, walkChain, h1, h2, chainSingles, Except.map]
      · simp [metarig_definition, h, hp, walkChain, h1, chainSingles, Except.map]

/-- Witness for C5: on the one-bone armature the named bone exists, has no
parent, and `metarig_definition` raises. -/
theorem metarig_definition_error_iff_witness :
    ∃ e, metarig_definition demoArmA aN = some (Except.error e) :=
  (metarig_definition_error_iff demoArmA aN demoBoneA rfl).mpr (Or.inl rfl)

/-- C6: for every bone whose topology satisfies the precondition (it has a
parent, and the bone, its child, and its grandchild each have exactly one
child), `metarig_definition` returns a list of exactly five bone names in
the order: the parent's name, the given bone's name, then the names of the
three successive single children. -/
theorem metarig_definition_success (bones : List EBone) (orig : String)
    (ob c1 c2 c3 : EBone) (p : String)
    (h : findBone bones orig = some ob) (hp : ob.parent = some p)
    (h1 : boneChildren bones ob.name = [c1])
    (h2 : boneChildren bones c1.name = [c2])
    (h3 : boneChildren bones c2.name = [c3]) :
    metarig_definition bones orig =
      some (Except.ok [p, orig, c1.name, c2.name, c3.name]) := by
  have hname : ob.name = orig := by
    rw [findBone] at h
    have h4 := List.find?_some h
    simpa using h4
  rw [hname] at h1
  simp [metarig_definition, h, hp, walkChain, h1, h2, h3, hname, METARIG_NAMES,
    Except.map]

/-- Witness for C6: on the metarig chain armature, `metarig_definition`
applied to the thigh returns the five names hips, thigh, shin, foot, toe. -/
theorem metarig_definition_success_witness :
    metarig_definition (mkSession gDemo).bones thighN =
      some (Except.ok [hipsN, thighN, shinN, footN, toeN]) :=
  metarig_definition_success (mkSession gDemo).bones thighN
    (mkBone thighN gDemo.thigh false (some hipsN))
    (mkBone shinN gDemo.shin true (some thighN))
    (mkBone footN gDemo.foot true (some shinN))
    (mkBone toeN gDemo.toe true (some footN))
    hipsN rfl rfl rfl rfl rfl

/-- C8: the internal consistency error of `metarig_definition` is
unreachable: on every input the result is a missing-bone `none`, a
successful list of exactly five names (`METARIG_NAMES.length`), the
no-parent error, or the fork error, and the internal-error message differs
from both error messages. -/
theorem metarig_definition_internal_error_unreachable
    (bones : List EBone) (orig : String) :
    (metarig_definition bones orig = none ∨
     (∃ names, metarig_definition bones orig = some (Except.ok names) ∧
       names.length = METARIG_NAMES.length) ∨
     metarig_definition bones orig = some (Except.error errNoParent) ∨
     metarig_definition bones orig = some (Except.error errFork)) ∧
    (errInternal == errNoParent) = false ∧
    (errInternal == errFork) = false := by
  refine ⟨?_, by decide, by decide⟩
  rcases hb : findBone bones orig with _ | ob
  · left
    simp [metarig_definition, hb]
  · rcases hp : ob.parent with _ | p
    · right; right; left
      simp [metarig_definition, hb, hp]
    · rcases hw : walkChain bones ob 3 with e | rest
      · right; right; right
        have he : e = errFork := walkChain_error_eq bones 3 ob e hw
        simp [metarig_definition, hb, hp, hw, he, Except.map]
      · right; left
        have hl : rest.length = 3 := walkChain_ok_length bones 3 ob rest hw
        refine ⟨p :: orig :: rest, ?_, ?_⟩
        · have hname : ob.name = orig := by
            rw [findBone] at hb
            have h4 := List.find?_some hb
            simpa using h4
          simp [metarig_definition, hb, hp, hw, hname, METARIG_NAMES, hl]
        · simp [METARIG_NAMES, hl]

/-- C10: `metarig_definition` performs no mutation of the armature for any
input: its statement-by-statement state-passing mirror returns the armature
state unchanged, together with exactly the value of the pure embedding (so
in particular the armature is unchanged whenever it raises). -/
theorem metarig_definition_pure (bones : List EBone) (orig : String) :
    metarig_definition_st orig bones = (metarig_definition bones orig, bones) := by
  have hw : ∀ (n : Nat) (b : EBone),
      walkChainSt b n bones = (walkChain bones b n, bones) := by
    intro n
    induction n with
    | zero =>
      intro b
      rfl
    | succ k ih =>
      intro b
      rw [walkChainSt, walkChain]
      rcases hc : boneChildren bones b.name with _ | ⟨c, t⟩
      · simp [stBind, readChildrenSt, stPure, hc]
      · rcases t with _ | ⟨c2, t2⟩
        · simp [stBind, readChildrenSt, stPure, hc, ih c]
        · simp [stBind, readChildrenSt, stPure, hc]
  rcases hb : findBone bones orig with _ | ob
  · simp [metarig_definition_st, metarig_definition, stBind, stPure, readBoneSt, hb]
  · rcases hp : ob.parent with _ | p
    · simp [metarig_definition_st, metarig_definition, stBind, stPure, readBoneSt, hb, hp]
    · rcases hwc : walkChain bones ob 3 with e | rest
      · simp [metarig_definition_st, metarig_definition, stBind, stPure,
          readBoneSt, hb, hp, hw, hwc]
      · simp only [metarig_definition_st, metarig_definition, stBind, stPure,
          readBoneSt, hb, hp, hw, hwc]
        by_cases hlen : rest.length + 1 + 1 = METARIG_NAMES.length <;>
          simp [hlen, stPure]

end LegQuadruped
